import Mathlib

/-!
Verification of the `inference_gui` repository (frontend `src/frontend/src/App.jsx`
plus the spec-described backend core) against its natural-language specification.

The frontend is a React component; we embed its pure logic shallowly:
each event handler becomes a Lean function from the relevant client state
and inputs to the new state and/or the HTTP request it issues.  JSON values
that may be absent are `Option`; JavaScript's `x || 0` idiom on integer
fields becomes `Option.getD 0` (for the integer values at play, `0` and a
missing field coincide under `||`).  JavaScript number division in the
progress bar is modelled over `ℚ`, which preserves the order bounds at issue.
-/

/-- A box color, as used by the robot and the orders. -/
inductive Color where
  | white
  | yellow
  | black
deriving DecidableEq, Repr

/-- Robot status, per the spec's RobotState (§3). -/
inductive RobotStatus where
  | idle
  | loading_model
  | picking
  | error
deriving DecidableEq, Repr

/-- Outcome of a pick request, per the spec's error taxonomy (§7). -/
inductive PickResult where
  | success
  | busy
  | modelLoadFailed
  | pickFailed
deriving DecidableEq, Repr

/-- The robot state machine's state: status plus currently loaded model (§3). -/
structure RobotState where
  status : RobotStatus
  currentModel : Option Color
deriving DecidableEq, Repr

/-- Modelled from the spec: the backend Robot State Machine (§4.1) is not in
`src/` (the backend directory holds only `start.sh`).  `requestPick` follows
§4.1's contract verbatim: if `status ≠ idle` it fails with `Busy` and touches
nothing; if the requested color is already loaded it skips the load and goes
directly to `picking`; otherwise it loads the model (on success setting
`currentModel`, on failure moving to `error` with `ModelLoadFailed`); from
`picking` the actuator pick either returns the machine to `idle` with success
or moves it to `error` with `PickFailed`.  The two `Bool` arguments are the
actuator outcomes for the model-load and pick calls. -/
def requestPick (st : RobotState) (color : Color) (loadOk pickOk : Bool) :
    PickResult × RobotState :=
  if st.status = RobotStatus.idle then
    if st.currentModel = some color then
      if pickOk then (PickResult.success, { st with status := RobotStatus.idle })
      else (PickResult.pickFailed, { st with status := RobotStatus.error })
    else if loadOk then
      if pickOk then
        (PickResult.success, { status := RobotStatus.idle, currentModel := some color })
      else
        (PickResult.pickFailed, { status := RobotStatus.error, currentModel := some color })
    else (PickResult.modelLoadFailed, { st with status := RobotStatus.error })
  else (PickResult.busy, st)

/-- An order as the frontend receives it over the wire (`App.jsx` field
accesses `order.id`, `order.status`, `order.white_boxes`, …,
`order.completed_black`).  Count fields are `Option Int`: the code guards
several of them with `|| 0`, so absence is representable. -/
structure OrderView where
  id : String
  status : String
  white_boxes : Option Int
  yellow_boxes : Option Int
  black_boxes : Option Int
  completed_white : Option Int
  completed_yellow : Option Int
  completed_black : Option Int
deriving DecidableEq, Repr

/-- JavaScript's `x || 0` applied to an optional integer field: a missing
(or zero) value yields `0`. -/
def orZero (v : Option Int) : Int := v.getD 0

/-- The client state of `App.jsx` that the claims concern: the `useState`
hooks `robotStatus`, `currentModel`, `orders`, `selectedOrderId`,
`isPickingInProgress`. -/
structure ClientState where
  robotStatus : String
  currentModel : Option String
  orders : List OrderView
  selectedOrderId : Option String
  isPickingInProgress : Bool
deriving DecidableEq, Repr

/-- A push-channel (WebSocket) message as parsed in `websocket.onmessage`:
`{robot_status, current_model, orders}`, where `orders` may be absent/null. -/
structure WsMessage where
  robot_status : String
  current_model : Option String
  orders : Option (List OrderView)
deriving DecidableEq, Repr

/-- `websocket.onmessage` (App.jsx lines 25–31): sets `robotStatus`,
`currentModel`, `orders` (defaulting a falsy `orders` field to `[]`) and
recomputes `isPickingInProgress` from the fresh `robot_status`. -/
def onmessage (st : ClientState) (data : WsMessage) : ClientState :=
  { st with
    robotStatus := data.robot_status
    currentModel := data.current_model
    orders := data.orders.getD []
    isPickingInProgress :=
      data.robot_status == "picking" || data.robot_status == "loading_model" }

/-- The body of the `POST /api/pick` request issued by `handlePick`. -/
structure PickPost where
  color : String
  order_id : Option String
deriving DecidableEq, Repr

/-- `handlePick` (App.jsx lines 55–66): if `isPickingInProgress` it returns at
once, issuing no request; otherwise it posts `{color, order_id:
selectedOrderId}`.  It never mutates client state, so the result pairs the
(optional) issued request with the unchanged state. -/
def handlePick (st : ClientState) (color : String) : Option PickPost × ClientState :=
  if st.isPickingInProgress then (none, st)
  else (some { color := color, order_id := st.selectedOrderId }, st)

/-- The success path of `deleteOrder` (App.jsx lines 79–89): after the DELETE
request succeeds, clear `selectedOrderId` when it equals the deleted id. -/
def deleteOrderOnSuccess (st : ClientState) (orderId : String) : ClientState :=
  if st.selectedOrderId = some orderId then { st with selectedOrderId := none }
  else st

/-- `getStatusColor` (App.jsx lines 91–99). -/
def getStatusColor (status : String) : String :=
  if status = "idle" then "text-green-400"
  else if status = "loading_model" then "text-yellow-400"
  else if status = "picking" then "text-blue-400"
  else if status = "error" then "text-red-400"
  else "text-gray-400"

/-- A rendered status icon: which lucide icon, with which className. -/
structure IconView where
  icon : String
  cls : String
deriving DecidableEq, Repr

/-- `getStatusIcon` (App.jsx lines 101–109). -/
def getStatusIcon (status : String) : IconView :=
  if status = "idle" then { icon := "CheckCircle", cls := "w-5 h-5" }
  else if status = "loading_model" then { icon := "Loader2", cls := "w-5 h-5 animate-spin" }
  else if status = "picking" then { icon := "Activity", cls := "w-5 h-5 animate-pulse" }
  else if status = "error" then { icon := "AlertCircle", cls := "w-5 h-5" }
  else { icon := "Activity", cls := "w-5 h-5" }

/-- The progress-bar width expression rendered for an `in_progress` order
(App.jsx lines 308–313), over `ℚ`:
`((completed_white||0)+(completed_yellow||0)+(completed_black||0)) /
 ((white_boxes||0)+(yellow_boxes||0)+(black_boxes||0)) * 100`. -/
def progressBarWidth (o : OrderView) : ℚ :=
  (((orZero o.completed_white + orZero o.completed_yellow + orZero o.completed_black : ℤ) : ℚ) /
      ((orZero o.white_boxes + orZero o.yellow_boxes + orZero o.black_boxes : ℤ) : ℚ)) * 100

/-- The longest leading run of decimal digits of a character list. -/
def takeDigits : List Char → List Char
  | [] => []
  | c :: cs => if c.isDigit then c :: takeDigits cs else []

/-- Value of a digit string, most significant first. -/
def digitsToNat (ds : List Char) : Nat :=
  ds.foldl (fun acc c => acc * 10 + (c.toNat - 48)) 0

/-- Leading whitespace removed, as `parseInt` does before reading a sign. -/
def dropSpaces : List Char → List Char
  | [] => []
  | c :: cs => if c.isWhitespace then dropSpaces cs else c :: cs

/-- JavaScript `parseInt(s)` restricted to the strings a `type="number"`
input can hold (no hex forms there): skip leading whitespace, read an
optional sign, then the longest digit run; `none` models the `NaN` result
when no digit follows. -/
def jsParseInt (s : String) : Option Int :=
  match dropSpaces s.toList with
  | '-' :: rest =>
      let ds := takeDigits rest
      if ds.isEmpty then none else some (-(digitsToNat ds : Int))
  | '+' :: rest =>
      let ds := takeDigits rest
      if ds.isEmpty then none else some ((digitsToNat ds : Int))
  | cs =>
      let ds := takeDigits cs
      if ds.isEmpty then none else some ((digitsToNat ds : Int))

/-- The value a create-order count field's `onChange` handler stores
(App.jsx lines 356, 368, 380): `parseInt(e.target.value) || 0`.  `NaN`
falls back to `0`; a parsed `0` (or `-0`) is falsy and also yields `0`,
which `Option.getD 0` matches since those values are already `0`. -/
def countFieldValue (s : String) : Int :=
  (jsParseInt s).getD 0

/-- C1: two concurrent handlePick calls never both move the robot.  In the
spec-modelled Robot State Machine, (a) a requestPick issued while another
operation is in flight (status `loading_model` or `picking`) returns `Busy`
and leaves the state untouched, and (b) any call that does not receive `Busy`
was issued from `idle`, so at most one robot operation is ever in flight. -/
theorem requestPick_busy_exclusion :
    (∀ st color loadOk pickOk,
        st.status = RobotStatus.loading_model ∨ st.status = RobotStatus.picking →
        requestPick st color loadOk pickOk = (PickResult.busy, st)) ∧
    (∀ st color loadOk pickOk,
        (requestPick st color loadOk pickOk).1 ≠ PickResult.busy →
        st.status = RobotStatus.idle) := by
  constructor
  · intro st color loadOk pickOk h
    rcases h with h | h <;> simp [requestPick, h]
  · intro st color loadOk pickOk h
    by_contra hne
    exact h (by simp [requestPick, if_neg hne])

/-- Witness for C1 at a concrete in-flight state. -/
theorem requestPick_busy_exclusion_witness :
    requestPick ⟨RobotStatus.picking, none⟩ Color.white true true =
      (PickResult.busy, ⟨RobotStatus.picking, none⟩) :=
  requestPick_busy_exclusion.1 ⟨RobotStatus.picking, none⟩ Color.white true true (Or.inr rfl)

/-- C2: after `websocket.onmessage` runs, the client's busy flag
`isPickingInProgress` is true iff the message's `robot_status` is `picking`
or `loading_model`; every other status yields a false flag. -/
theorem onmessage_busy_iff (st : ClientState) (data : WsMessage) :
    (onmessage st data).isPickingInProgress = true ↔
      data.robot_status = "picking" ∨ data.robot_status = "loading_model" := by
  simp [onmessage]

/-- C3: when the busy flag is true, `handlePick` issues no POST /api/pick
request and leaves the client state unchanged. -/
theorem handlePick_busy_noop (st : ClientState) (color : String)
    (h : st.isPickingInProgress = true) :
    handlePick st color = (none, st) := by
  simp [handlePick, h]

/-- Witness for C3 at a concrete busy state. -/
theorem handlePick_busy_noop_witness :
    handlePick ⟨"picking", none, [], none, true⟩ "white" =
      (none, ⟨"picking", none, [], none, true⟩) :=
  handlePick_busy_noop ⟨"picking", none, [], none, true⟩ "white" rfl

/-- C4: for an `in_progress` order with `0 ≤ completed ≤ requested` per color
and a positive total requirement, the progress-bar width has a nonzero
denominator and lies in `[0, 100]`. -/
theorem progressBarWidth_bounds (o : OrderView)
    (_hstat : o.status = "in_progress")
    (hw0 : 0 ≤ orZero o.completed_white) (hw : orZero o.completed_white ≤ orZero o.white_boxes)
    (hy0 : 0 ≤ orZero o.completed_yellow) (hy : orZero o.completed_yellow ≤ orZero o.yellow_boxes)
    (hb0 : 0 ≤ orZero o.completed_black) (hb : orZero o.completed_black ≤ orZero o.black_boxes)
    (htot : 1 ≤ orZero o.white_boxes + orZero o.yellow_boxes + orZero o.black_boxes) :
    ((orZero o.white_boxes + orZero o.yellow_boxes + orZero o.black_boxes : ℤ) : ℚ) ≠ 0 ∧
      0 ≤ progressBarWidth o ∧ progressBarWidth o ≤ 100 := by
  have hd : (0 : ℚ) <
      ((orZero o.white_boxes + orZero o.yellow_boxes + orZero o.black_boxes : ℤ) : ℚ) := by
    exact_mod_cast lt_of_lt_of_le Int.zero_lt_one htot
  have hn : (0 : ℚ) ≤
      ((orZero o.completed_white + orZero o.completed_yellow + orZero o.completed_black : ℤ) : ℚ) := by
    exact_mod_cast add_nonneg (add_nonneg hw0 hy0) hb0
  have hnd :
      ((orZero o.completed_white + orZero o.completed_yellow + orZero o.completed_black : ℤ) : ℚ) ≤
      ((orZero o.white_boxes + orZero o.yellow_boxes + orZero o.black_boxes : ℤ) : ℚ) := by
    exact_mod_cast add_le_add (add_le_add hw hy) hb
  refine ⟨ne_of_gt hd, ?_, ?_⟩
  · exact mul_nonneg (div_nonneg hn (le_of_lt hd)) (by norm_num)
  · have hq : ((orZero o.completed_white + orZero o.completed_yellow +
        orZero o.completed_black : ℤ) : ℚ) /
        ((orZero o.white_boxes + orZero o.yellow_boxes + orZero o.black_boxes : ℤ) : ℚ) ≤ 1 :=
      (div_le_one hd).mpr hnd
    unfold progressBarWidth
    nlinarith [hq]

/-- Witness for C4 at a concrete in-progress order. -/
theorem progressBarWidth_bounds_witness :
    0 ≤ progressBarWidth
        (OrderView.mk "o1" "in_progress" (some 2) (some 1) (some 0)
          (some 1) (some 0) (some 0)) ∧
    progressBarWidth
        (OrderView.mk "o1" "in_progress" (some 2) (some 1) (some 0)
          (some 1) (some 0) (some 0)) ≤ 100 :=
  (progressBarWidth_bounds
    (OrderView.mk "o1" "in_progress" (some 2) (some 1) (some 0) (some 1) (some 0) (some 0))
    rfl (by decide) (by decide) (by decide) (by decide) (by decide) (by decide)
    (by decide)).2

/-- C5 (code_bug evidence): typing `-5` into a create-order count field
stores the negative integer `-5` — `parseInt(v) || 0` only catches `NaN`,
not negative values — contradicting the non-negative-integer contract of
`POST /api/orders` and the input's own `min="0"` attribute. -/
theorem countFieldValue_negative_input :
    countFieldValue "-5" = -5 ∧ countFieldValue "-5" < 0 := by
  constructor <;> decide

/-- C6: after a successful `deleteOrder(id)`, the selected-order reference is
cleared to null exactly when it pointed at the deleted order, and is left
unchanged otherwise. -/
theorem deleteOrder_selected_cleared (st : ClientState) (orderId : String) :
    (st.selectedOrderId = some orderId →
      (deleteOrderOnSuccess st orderId).selectedOrderId = none) ∧
    (st.selectedOrderId ≠ some orderId →
      (deleteOrderOnSuccess st orderId).selectedOrderId = st.selectedOrderId) := by
  constructor
  · intro h
    simp [deleteOrderOnSuccess, h]
  · intro h
    simp [deleteOrderOnSuccess, h]

/-- Witness for C6: both branches at concrete states. -/
theorem deleteOrder_selected_cleared_witness :
    (deleteOrderOnSuccess ⟨"idle", none, [], some "a", false⟩ "a").selectedOrderId = none ∧
    (deleteOrderOnSuccess ⟨"idle", none, [], some "a", false⟩ "b").selectedOrderId = some "a" :=
  ⟨(deleteOrder_selected_cleared ⟨"idle", none, [], some "a", false⟩ "a").1 rfl,
   (deleteOrder_selected_cleared ⟨"idle", none, [], some "a", false⟩ "b").2 (by decide)⟩

/-- C7: every pick request the client issues carries body `{color, order_id}`
with the requested color and the currently selected order id (null when no
order is selected); the `order_id` field is always present. -/
theorem handlePick_post_body (st : ClientState) (color : String) (req : PickPost)
    (h : (handlePick st color).1 = some req) :
    req.color = color ∧ req.order_id = st.selectedOrderId := by
  by_cases hb : st.isPickingInProgress
  · simp [handlePick, hb] at h
  · simp [handlePick, hb] at h
    simp [← h]

/-- Witness for C7 at a concrete non-busy state with a selected order. -/
theorem handlePick_post_body_witness :
    (PickPost.mk "white" (some "o1")).color = "white" ∧
    (PickPost.mk "white" (some "o1")).order_id =
      (ClientState.mk "idle" none [] (some "o1") false).selectedOrderId :=
  handlePick_post_body (ClientState.mk "idle" none [] (some "o1") false) "white"
    (PickPost.mk "white" (some "o1")) rfl

/-- C8: `onmessage` replaces robot status, current model, and order list
wholesale with the message's fields — the new values depend only on the
message, never on the prior snapshot state. -/
theorem onmessage_replaces_snapshot (st : ClientState) (data : WsMessage) :
    (onmessage st data).robotStatus = data.robot_status ∧
    (onmessage st data).currentModel = data.current_model ∧
    ∀ l, data.orders = some l → (onmessage st data).orders = l := by
  refine ⟨rfl, rfl, ?_⟩
  intro l hl
  simp [onmessage, hl]

/-- Witness for C8 at a concrete message. -/
theorem onmessage_replaces_snapshot_witness :
    (onmessage (ClientState.mk "idle" none [] none false)
        (WsMessage.mk "picking" (some "white") (some []))).robotStatus = "picking" ∧
    (onmessage (ClientState.mk "idle" none [] none false)
        (WsMessage.mk "picking" (some "white") (some []))).orders = [] :=
  ⟨(onmessage_replaces_snapshot (ClientState.mk "idle" none [] none false)
      (WsMessage.mk "picking" (some "white") (some []))).1,
   (onmessage_replaces_snapshot (ClientState.mk "idle" none [] none false)
      (WsMessage.mk "picking" (some "white") (some []))).2.2 [] rfl⟩

/-- C9: `getStatusColor` and `getStatusIcon` are total; on any status outside
the four known ones they return the gray color class and the generic
Activity icon via their default branches. -/
theorem getStatus_default_total (s : String)
    (h : s ∉ ["idle", "loading_model", "picking", "error"]) :
    getStatusColor s = "text-gray-400" ∧
    getStatusIcon s = { icon := "Activity", cls := "w-5 h-5" } := by
  simp only [List.mem_cons, List.mem_singleton, not_or] at h
  obtain ⟨h1, h2, h3, h4⟩ := h
  exact ⟨by simp [getStatusColor, h1, h2, h3, h4],
         by simp [getStatusIcon, h1, h2, h3, h4]⟩

/-- Witness for C9 at an unknown status string. -/
theorem getStatus_default_total_witness :
    getStatusColor "offline" = "text-gray-400" ∧
    getStatusIcon "offline" = { icon := "Activity", cls := "w-5 h-5" } :=
  getStatus_default_total "offline" (by decide)

/-- C10: a push message whose `orders` field is absent/null leaves the client
order list as the empty array, never an undefined value. -/
theorem onmessage_orders_default (st : ClientState) (data : WsMessage)
    (h : data.orders = none) :
    (onmessage st data).orders = [] := by
  simp [onmessage, h]

/-- Witness for C10 at a concrete message without orders. -/
theorem onmessage_orders_default_witness :
    (onmessage (ClientState.mk "idle" none [] none false)
        (WsMessage.mk "idle" none none)).orders = [] :=
  onmessage_orders_default (ClientState.mk "idle" none [] none false)
    (WsMessage.mk "idle" none none) rfl
